import Mathlib

/-!
# GTFS-RT fetch pipeline: shallow embedding of `src/api_handler/fetch_data.py`

This file embeds `fetch_gtfs_rt_data` (the only non-trivial function of the
repository) together with the data it manipulates:

* the wire-level GTFS-realtime protobuf messages (`FeedMessage`, `FeedEntity`,
  `VehiclePosition`, ...) as structures whose `Option` fields record protobuf
  field *presence* on the wire;
* the dict built for each vehicle entity (lines 86-99 of the source) and the
  pydantic models it is validated against (`VehiclePositionModel`,
  `GTFSRTDataModel`);
* the retry loop (`for attempt in range(retries)` with its chain of `except`
  clauses) as a recursion over the remaining loop iterations, instrumented
  with the trace of effects (HTTP requests issued, `time.sleep(2)` backoffs).

Numeric conventions: protobuf `uint32`/`uint64`/enum fields are carried as
`Nat`; `float`/`double`-valued wire fields (latitude, bearing, ...) are
carried as `Int`, since every claim concerns only the presence and
propagation of these values, never floating-point arithmetic.
-/

/-! ## Wire model (gtfs_realtime_pb2 messages)

Each `Option` field records whether the optional protobuf field is *set* on
the wire.  Reading an unset field through the protobuf API yields the field's
protobuf default value, never `None`; `pbGetattr` below captures that. -/

/-- `TripDescriptor` wire message (all fields optional). -/
structure TripDescriptor where
  trip_id : Option String
  route_id : Option String
  direction_id : Option Nat
  start_time : Option String
  start_date : Option String
  schedule_relationship : Option Nat
deriving DecidableEq, Repr

/-- `VehicleDescriptor` wire message (all fields optional strings). -/
structure VehicleDescriptor where
  id : Option String
  label : Option String
  license_plate : Option String
deriving DecidableEq, Repr

/-- `Position` wire message.  Float-valued fields carried as `Int` (see the
file header); protobuf default for each is `0`. -/
structure Position where
  latitude : Option Int
  longitude : Option Int
  bearing : Option Int
  odometer : Option Int
  speed : Option Int
deriving DecidableEq, Repr

/-- One element of the repeated `multi_carriage_details` field: a
`CarriageDetails` protobuf *message object* (not a Python dict). -/
structure CarriageDetails where
  id : Option String
  label : Option String
  carriage_sequence : Option Nat
deriving DecidableEq, Repr

/-- `VehiclePosition` wire message.  `current_status` is declared in the
GTFS-realtime schema with `[default = IN_TRANSIT_TO]`, i.e. default code `2`;
every other scalar field defaults to `0` / `""`. -/
structure VehiclePosition where
  trip : Option TripDescriptor
  vehicle : Option VehicleDescriptor
  position : Option Position
  current_stop_sequence : Option Nat
  stop_id : Option String
  current_status : Option Nat
  timestamp : Option Nat
  congestion_level : Option Nat
  occupancy_status : Option Nat
  occupancy_percentage : Option Nat
  multi_carriage_details : List CarriageDetails
deriving DecidableEq, Repr

/-- `FeedHeader` wire message (only the field the source reads). -/
structure FeedHeader where
  timestamp : Option Nat
deriving DecidableEq, Repr

/-- `FeedEntity` wire message: required `id`, plus the `oneof`-style
`vehicle` / `trip_update` / `alert` fields probed with `HasField`.  The
source treats `trip_update` and `alert` as opaque placeholders, so their
payloads are not modelled beyond presence. -/
structure FeedEntity where
  id : String
  vehicle : Option VehiclePosition
  trip_update : Option Unit
  alert : Option Unit
deriving DecidableEq, Repr

/-- `FeedMessage` wire message: header plus repeated entities. -/
structure FeedMessage where
  header : FeedHeader
  entity : List FeedEntity
deriving DecidableEq, Repr

/-! ## Mapped records and pydantic models -/

/-- Python `getattr(msg, field, None)` on a protobuf optional scalar field.
The attribute always exists on the message object, so the `None` default of
`getattr` is never used: a set field reads as its value, an unset field reads
as its protobuf default.  The result is typed as a Python optional value
(which this access pattern never actually makes `None`). -/
def pbGetattr {α : Type} (v : Option α) (pbDefault : α) : Option α :=
  some (v.getD pbDefault)

/-- Accessing a singular sub-message field (`entity.vehicle.trip` etc.):
an unset field reads as the default (all-unset) message instance. -/
def pbSub {α : Type} (m : Option α) (dflt : α) : α :=
  m.getD dflt

/-- Default (all fields unset) `TripDescriptor` instance. -/
def defaultTripDescriptor : TripDescriptor :=
  ⟨none, none, none, none, none, none⟩

/-- Default `VehicleDescriptor` instance. -/
def defaultVehicleDescriptor : VehicleDescriptor :=
  ⟨none, none, none⟩

/-- Default `Position` instance. -/
def defaultPosition : Position :=
  ⟨none, none, none, none, none⟩

/-- pydantic `TripModel`: the shape of the `trip` sub-dict built at line 88
of the source. -/
structure TripModel where
  trip_id : Option String
  route_id : Option String
  direction_id : Option Nat
  start_time : Option String
  start_date : Option String
  schedule_relationship : Option Nat
deriving DecidableEq, Repr

/-- pydantic `VehicleInfoModel`: the `vehicle` sub-dict (line 89). -/
structure VehicleInfoModel where
  id : Option String
  label : Option String
  license_plate : Option String
deriving DecidableEq, Repr

/-- pydantic `PositionModel`: the `position` sub-dict (line 90). -/
structure PositionModel where
  latitude : Option Int
  longitude : Option Int
  bearing : Option Int
  odometer : Option Int
  speed : Option Int
deriving DecidableEq, Repr

/-- pydantic `VehiclePositionModel` / the `vehicle_data` dict of lines 86-99.
`id : str` is required; every other field is `Optional`;
`multi_carriage_details` receives the repeated protobuf field's message
objects (the source passes `entity.vehicle.multi_carriage_details or []`). -/
structure VehiclePositionModel where
  id : String
  trip : Option TripModel
  vehicle : Option VehicleInfoModel
  position : Option PositionModel
  current_stop_sequence : Option Nat
  stop_id : Option String
  current_status : Option Nat
  timestamp : Option Nat
  congestion_level : Option Nat
  occupancy_status : Option Nat
  occupancy_percentage : Option Nat
  multi_carriage_details : List CarriageDetails
deriving DecidableEq, Repr

/-- pydantic `GTFSRTDataModel` / the `result` dict of line 79: three optional
slots.  `trip_update` and `alert` only ever receive the placeholder empty
dict `{}` (lines 110, 113), modelled as `Unit`. -/
structure GTFSRTDataModel where
  vehicle : Option VehiclePositionModel
  trip_update : Option Unit
  alert : Option Unit
deriving DecidableEq, Repr

/-- The `vehicle_data` dict built for one vehicle-tagged entity
(lines 86-99): every sub-field is read with
`getattr(entity.vehicle.<sub>, field, None)`, so an absent wire field
contributes its protobuf default value (never `None`), and an absent
sub-message contributes a fully-defaulted sub-dict.  `timestamp` is read
from `feed.header`, not from the entity (line 94). -/
def mapVehicleData (entityId : String) (vp : VehiclePosition)
    (headerTs : Option Nat) : VehiclePositionModel :=
  let t := pbSub vp.trip defaultTripDescriptor
  let vd := pbSub vp.vehicle defaultVehicleDescriptor
  let p := pbSub vp.position defaultPosition
  { id := entityId
  , trip := some
      { trip_id := pbGetattr t.trip_id ""
      , route_id := pbGetattr t.route_id ""
      , direction_id := pbGetattr t.direction_id 0
      , start_time := pbGetattr t.start_time ""
      , start_date := pbGetattr t.start_date ""
      , schedule_relationship := pbGetattr t.schedule_relationship 0 }
  , vehicle := some
      { id := pbGetattr vd.id ""
      , label := pbGetattr vd.label ""
      , license_plate := pbGetattr vd.license_plate "" }
  , position := some
      { latitude := pbGetattr p.latitude 0
      , longitude := pbGetattr p.longitude 0
      , bearing := pbGetattr p.bearing 0
      , odometer := pbGetattr p.odometer 0
      , speed := pbGetattr p.speed 0 }
  , current_stop_sequence := pbGetattr vp.current_stop_sequence 0
  , stop_id := pbGetattr vp.stop_id ""
  , current_status := pbGetattr vp.current_status 2
  , timestamp := pbGetattr headerTs 0
  , congestion_level := pbGetattr vp.congestion_level 0
  , occupancy_status := pbGetattr vp.occupancy_status 0
  , occupancy_percentage := pbGetattr vp.occupancy_percentage 0
  , multi_carriage_details := vp.multi_carriage_details }

/-- pydantic validation `VehiclePositionModel(**vehicle_data)` (line 102),
specialised to the dicts the mapper actually builds.  Every field the mapper
produces conforms to its declared type (`id` is always a `str`, scalars are
`int`/`float`/`str`, the three sub-dicts conform to their sub-models) with
one exception: `multi_carriage_details` is declared `Optional[List[dict]]`
but receives protobuf `CarriageDetails` *message objects*, which pydantic
rejects as "not a valid dictionary" — so validation fails exactly when that
list is non-empty.  On success pydantic reproduces the input data
(`model_dump`, line 104). -/
def VehiclePositionModel.validate (d : VehiclePositionModel) :
    Except String VehiclePositionModel :=
  if d.multi_carriage_details.isEmpty then .ok d
  else .error "multi_carriage_details: Input should be a valid dictionary"

/-- The initial `result` dict (line 79). -/
def initResult : GTFSRTDataModel :=
  { vehicle := none, trip_update := none, alert := none }

/-- One iteration of the entity loop (lines 81-113): a vehicle-tagged entity
is mapped and validated (a `ValidationError` is re-raised, aborting the
loop — the error is the `String` of the `Except`); `trip_update` / `alert`
presence installs the placeholder empty dict. -/
def processEntity (headerTs : Option Nat) (result : GTFSRTDataModel)
    (e : FeedEntity) : Except String GTFSRTDataModel :=
  let afterVehicle : Except String GTFSRTDataModel :=
    match e.vehicle with
    | some vp =>
        match (mapVehicleData e.id vp headerTs).validate with
        | .error m => .error m
        | .ok v => .ok { result with vehicle := some v }
    | none => .ok result
  match afterVehicle with
  | .error m => .error m
  | .ok r1 =>
      let r2 := if e.trip_update.isSome then { r1 with trip_update := some () } else r1
      let r3 := if e.alert.isSome then { r2 with alert := some () } else r2
      .ok r3

/-! ## Exceptions and the per-attempt body -/

/-- The exceptions `requests.get` can raise (the only exception source inside
the `try` block besides the explicit `raise` statements).  In the `requests`
class hierarchy every one of these is a `RequestException`; `HTTPError` is
additionally matched by the dedicated first handler, and `InvalidURL` also
subclasses `ValueError` — irrelevant here because the `RequestException`
clause precedes the `ValueError` clause. -/
inductive ReqExc where
  | httpError (msg : String)
  | invalidURL
  | connectionError
  | timeout
deriving DecidableEq, Repr

/-- A network (connection/timeout) failure, the spec's retryable
`NetworkError` class. -/
def ReqExc.isNetwork : ReqExc → Bool
  | .connectionError | .timeout => true
  | _ => false

/-- Every exception that can propagate out of the `try` block of one loop
iteration, tagged by the Python class the `except` chain dispatches on. -/
inductive PyExc where
  /-- `requests.exceptions.HTTPError` -/
  | httpError (msg : String)
  /-- `requests.exceptions.InvalidURL` (a `RequestException`) -/
  | invalidURL
  /-- `requests.exceptions.ConnectionError` -/
  | connectionError
  /-- `requests.exceptions.Timeout` -/
  | timeout
  /-- `google.protobuf.message.DecodeError` -/
  | decodeError (msg : String)
  /-- `pydantic.ValidationError` -/
  | validationError (msg : String)
  /-- `ValueError` (the content-type check, line 62) -/
  | valueError (msg : String)
  /-- plain `Exception` (the empty-body raise, line 66; also used for the
  wrapped message the `HTTPError` handler raises, line 122) -/
  | exception (msg : String)
deriving DecidableEq, Repr

/-- Embedding of the `requests` exceptions into the full exception type. -/
def ReqExc.toPyExc : ReqExc → PyExc
  | .httpError m => .httpError m
  | .invalidURL => .invalidURL
  | .connectionError => .connectionError
  | .timeout => .timeout

/-- An exception whose handler retries (sleeps and continues) while attempts
remain: the `RequestException` clause minus `HTTPError` (which the first
clause intercepts), and the final generic `Exception` clause. -/
def PyExc.retriable : PyExc → Bool
  | .invalidURL | .connectionError | .timeout | .exception _ => true
  | _ => false

/-- The body bytes of an HTTP response, as far as the source inspects them:
`not response.content` (emptiness, line 65) and the outcome of
`feed.ParseFromString(response.content)` (lines 72-76). -/
inductive Body where
  | empty
  | malformed (msg : String)
  | wellFormed (feed : FeedMessage)
deriving DecidableEq, Repr

/-- The response object returned by `requests.get`: the source reads
`headers.get('Content-Type')`, `content`, and (for logging only)
`status_code`. -/
structure HttpResponse where
  status_code : Nat
  contentType : Option String
  content : Body
deriving DecidableEq, Repr

/-- What one call to `requests.get(url, timeout=10)` does: either raise a
`requests` exception or return a response. -/
inductive HttpOutcome where
  | raises (e : ReqExc)
  | returns (r : HttpResponse)
deriving DecidableEq, Repr

/-- Python `str()` of the value `headers.get('Content-Type')`, as interpolated
into the `ValueError` message. -/
def pyStr : Option String → String
  | none => "None"
  | some s => s

/-- The entity loop over the whole feed plus the final
`GTFSRTDataModel(**result)` validation (lines 79-117).  The outer model
always validates the loop's output (`vehicle` is a model dump that already
passed `VehiclePositionModel`, `trip_update`/`alert` are `None` or `{}`),
so success returns the accumulated result. -/
def processFeed (feed : FeedMessage) : Except PyExc GTFSRTDataModel :=
  match feed.entity.foldlM (processEntity feed.header.timestamp) initResult with
  | .error m => .error (.validationError m)
  | .ok r => .ok r

/-- The `try` block of one loop iteration (lines 55-117), as a function of
what `requests.get` does on this attempt: content-type check (line 61),
empty-body check (line 65), protobuf parse with its wrapped `DecodeError`
(lines 72-76), then the entity loop and validations.  The HTTP status code
is only logged, never checked. -/
def attemptTry (o : HttpOutcome) : Except PyExc GTFSRTDataModel :=
  match o with
  | .raises e => .error e.toPyExc
  | .returns r =>
      if r.contentType ≠ some "application/x-protobuf" then
        .error (.valueError ("Unexpected content type: " ++ pyStr r.contentType))
      else
        match r.content with
        | .empty => .error (.exception "No valid GTFS RT data found")
        | .malformed m => .error (.decodeError ("Error parsing message: " ++ m))
        | .wellFormed feed => processFeed feed

/-! ## The retry loop -/

/-- Observable effects of one run: an HTTP request issued (`requests.get`)
and a fixed backoff delay (`time.sleep(2)`). -/
inductive Event where
  | request
  | sleepBackoff
deriving DecidableEq, Repr

/-- The loop `for attempt in range(retries)` (lines 54-152), iterating while
`fuel` loop iterations remain (`fuel = retries - attempt` at every call).
The nested match on the exception mirrors the `except` clause chain in
source order:
`HTTPError` (wrap and raise, line 122), `RequestException` (retry while
`attempt < retries - 1`, else re-raise, lines 124-132), `DecodeError`,
`ValidationError`, `ValueError` (re-raise, lines 134-144), `Exception`
(retry while attempts remain, else re-raise, lines 146-152).
Falling off the loop (only possible when `retries = 0`) returns Python
`None`, modelled as the `none` result.  The returned list is the trace of
effects. -/
def runFrom (get : Nat → HttpOutcome) (retries : Nat) :
    Nat → Nat → List Event × Option (Except PyExc GTFSRTDataModel)
  | 0, _ => ([], none)
  | fuel + 1, attempt =>
    match attemptTry (get attempt) with
    | .ok r => ([.request], some (.ok r))
    | .error e =>
      match e with
      | .httpError m =>
          ([.request], some (.error (.exception ("Error fetching GTFS RT data: " ++ m))))
      | .invalidURL | .connectionError | .timeout =>
          if attempt < retries - 1 then
            let next := runFrom get retries fuel (attempt + 1)
            (.request :: .sleepBackoff :: next.1, next.2)
          else
            ([.request], some (.error e))
      | .decodeError _ | .validationError _ | .valueError _ =>
          ([.request], some (.error e))
      | .exception _ =>
          if attempt < retries - 1 then
            let next := runFrom get retries fuel (attempt + 1)
            (.request :: .sleepBackoff :: next.1, next.2)
          else
            ([.request], some (.error e))

/-- `fetch_gtfs_rt_data(url, retries=3)`: run the loop from attempt 0 with
`retries` iterations available.  The `get` oracle gives the outcome of
`requests.get` on each attempt (the URL is fixed across attempts and only
threaded into `requests.get`, so it is absorbed into the oracle). -/
def fetch_gtfs_rt_data (get : Nat → HttpOutcome) (retries : Nat := 3) :
    List Event × Option (Except PyExc GTFSRTDataModel) :=
  runFrom get retries retries 0

/-- The trace a run of `n` consecutive failing-and-retried attempts leaves:
one request per attempt, one backoff between each consecutive pair. -/
def retryTrace : Nat → List Event
  | 0 => []
  | 1 => [.request]
  | n + 2 => .request :: .sleepBackoff :: retryTrace (n + 1)

/-- Spec-side description used for C10: the record mapped from the *last*
vehicle-tagged entity in feed order, if any. -/
def lastVehicleSlot (headerTs : Option Nat) (entities : List FeedEntity) :
    Option VehiclePositionModel :=
  match entities.reverse.find? (fun e => e.vehicle.isSome) with
  | none => none
  | some e => e.vehicle.map (fun vp => mapVehicleData e.id vp headerTs)

/-! ## Concrete inputs used by counterexamples and witnesses -/

/-- A success response with the required content type but a zero-length body. -/
def emptyBodyResponse : HttpResponse :=
  { status_code := 200, contentType := some "application/x-protobuf", content := .empty }

/-- An endpoint whose every response has an empty body. -/
def emptyBodyGet : Nat → HttpOutcome := fun _ => .returns emptyBodyResponse

/-- An endpoint for which `requests.get` always raises `InvalidURL`. -/
def invalidURLGet : Nat → HttpOutcome := fun _ => .raises .invalidURL

/-- A well-formed feed with no entities. -/
def feedNoEntities : FeedMessage :=
  { header := { timestamp := some 0 }, entity := [] }

/-- A response with HTTP status 500 whose content type and body are otherwise
perfectly valid. -/
def serverErrorResponse : HttpResponse :=
  { status_code := 500, contentType := some "application/x-protobuf",
    content := .wellFormed feedNoEntities }

/-- A wire `VehiclePosition` with every optional field unset. -/
def bareVehicle : VehiclePosition :=
  { trip := none, vehicle := none, position := none, current_stop_sequence := none,
    stop_id := none, current_status := none, timestamp := none, congestion_level := none,
    occupancy_status := none, occupancy_percentage := none, multi_carriage_details := [] }

/-- A feed entity tagged with the given vehicle payload. -/
def vehEntity (i : String) (vp : VehiclePosition) : FeedEntity :=
  { id := i, vehicle := some vp, trip_update := none, alert := none }

/-- A well-formed feed with a single valid vehicle entity. -/
def goodFeed : FeedMessage :=
  { header := { timestamp := some 100 }, entity := [vehEntity "v1" bareVehicle] }

/-- A vehicle whose `multi_carriage_details` is non-empty, the one mapped
shape pydantic rejects. -/
def badVehicle : VehiclePosition :=
  { bareVehicle with multi_carriage_details := [⟨none, none, none⟩] }

/-- A feed containing an entity that fails validation. -/
def badFeed : FeedMessage :=
  { header := { timestamp := some 100 }, entity := [vehEntity "v1" badVehicle] }

/-- A feed with two vehicle-tagged entities. -/
def twoVehFeed : FeedMessage :=
  { header := { timestamp := some 9 },
    entity := [vehEntity "a" bareVehicle, vehEntity "b" bareVehicle] }

/-! ## Theorems for the claims -/

/-- C1, counterexample: against the claim that an empty body fails
immediately with zero retries and exactly one HTTP request, an endpoint
whose every response is a success with the required content type but an
empty body is retried: with `retries = 3` the run issues three requests
with a backoff after each of the first two, and only then surfaces the
empty-body error. -/
theorem emptyBody_is_retried_counterexample :
    fetch_gtfs_rt_data emptyBodyGet 3 =
      ([.request, .sleepBackoff, .request, .sleepBackoff, .request],
       some (.error (.exception "No valid GTFS RT data found"))) ∧
    (fetch_gtfs_rt_data emptyBodyGet 3).1 ≠ [.request] := by
  constructor
  · rfl
  · decide

/-- C2, counterexample: against the claim that `InvalidURL` is never
retried, an endpoint for which `requests.get` always raises `InvalidURL`
(a subclass of `RequestException`, so caught by the retrying handler) is
retried: with `retries = 3` the run issues three requests with backoffs
in between before surfacing `InvalidURL`. -/
theorem invalidURL_is_retried_counterexample :
    fetch_gtfs_rt_data invalidURLGet 3 =
      ([.request, .sleepBackoff, .request, .sleepBackoff, .request],
       some (.error .invalidURL)) ∧
    (fetch_gtfs_rt_data invalidURLGet 3).1 ≠ [.request] := by
  constructor
  · rfl
  · decide

/-- C3 (code bug evaluated at the failing input): the HTTP status code is
never checked — a response with status 500 but correct content type and a
well-formed non-empty body is processed normally and the fetch returns a
successful `Result` on the first attempt, contradicting the required
status-2xx contract. -/
theorem serverError_status_not_checked :
    serverErrorResponse.status_code = 500 ∧
    fetch_gtfs_rt_data (fun _ => .returns serverErrorResponse) 3 =
      ([.request], some (.ok { vehicle := none, trip_update := none, alert := none })) := by
  constructor
  · rfl
  · rfl

/-- C7 (code bug evaluated at the failing input): mapping a vehicle entity
whose every optional wire field is absent produces *present* values
everywhere — the absent `trip`/`vehicle`/`position` sub-records map to
populated sub-dicts of protobuf defaults (empty strings and zeros,
`current_status` to its schema default `2`), not to absent values, because
`getattr(msg, field, None)` on a protobuf message never returns `None`. -/
theorem absent_fields_map_to_defaults :
    (mapVehicleData "e1" bareVehicle (some 42)).trip =
      some { trip_id := some "", route_id := some "", direction_id := some 0,
             start_time := some "", start_date := some "", schedule_relationship := some 0 } ∧
    (mapVehicleData "e1" bareVehicle (some 42)).vehicle =
      some { id := some "", label := some "", license_plate := some "" } ∧
    (mapVehicleData "e1" bareVehicle (some 42)).position =
      some { latitude := some 0, longitude := some 0, bearing := some 0,
             odometer := some 0, speed := some 0 } ∧
    (mapVehicleData "e1" bareVehicle (some 42)).current_status = some 2 ∧
    (mapVehicleData "e1" bareVehicle (some 42)).stop_id = some "" ∧
    (mapVehicleData "e1" bareVehicle (some 42)).trip ≠ none := by
  refine ⟨rfl, rfl, rfl, rfl, rfl, ?_⟩
  decide

/-- One loop step: a retriable exception with attempts remaining sleeps and
continues into the next iteration. -/
theorem runFrom_retry_step (get : Nat → HttpOutcome) (retries fuel attempt : Nat)
    (e : PyExc) (hTry : attemptTry (get attempt) = .error e)
    (hret : e.retriable = true) (hcond : attempt < retries - 1) :
    runFrom get retries (fuel + 1) attempt =
      (.request :: .sleepBackoff :: (runFrom get retries fuel (attempt + 1)).1,
       (runFrom get retries fuel (attempt + 1)).2) := by
  cases e with
  | httpError m => simp [PyExc.retriable] at hret
  | decodeError m => simp [PyExc.retriable] at hret
  | validationError m => simp [PyExc.retriable] at hret
  | valueError m => simp [PyExc.retriable] at hret
  | invalidURL => simp [runFrom, hTry, hcond]
  | connectionError => simp [runFrom, hTry, hcond]
  | timeout => simp [runFrom, hTry, hcond]
  | exception m => simp [runFrom, hTry, hcond]

/-- One loop step: a retriable exception on the last attempt is re-raised. -/
theorem runFrom_retry_stop (get : Nat → HttpOutcome) (retries fuel attempt : Nat)
    (e : PyExc) (hTry : attemptTry (get attempt) = .error e)
    (hret : e.retriable = true) (hcond : ¬ attempt < retries - 1) :
    runFrom get retries (fuel + 1) attempt = ([.request], some (.error e)) := by
  cases e with
  | httpError m => simp [PyExc.retriable] at hret
  | decodeError m => simp [PyExc.retriable] at hret
  | validationError m => simp [PyExc.retriable] at hret
  | valueError m => simp [PyExc.retriable] at hret
  | invalidURL => simp [runFrom, hTry, hcond]
  | connectionError => simp [runFrom, hTry, hcond]
  | timeout => simp [runFrom, hTry, hcond]
  | exception m => simp [runFrom, hTry, hcond]

/-- Retry-loop lemma: if every remaining attempt's `try` block raises an
exception whose handler retries, the loop performs one attempt per remaining
iteration with a backoff between consecutive ones, and finally re-raises the
exception of the last attempt. -/
theorem runFrom_all_retriable (get : Nat → HttpOutcome) (retries : Nat) :
    ∀ fuel attempt, attempt + fuel = retries → 0 < fuel →
    (∀ i, attempt ≤ i → i < retries →
       ∃ e, attemptTry (get i) = .error e ∧ e.retriable = true) →
    ∃ e, attemptTry (get (retries - 1)) = .error e ∧ e.retriable = true ∧
      runFrom get retries fuel attempt = (retryTrace fuel, some (.error e)) := by
  intro fuel
  induction fuel with
  | zero => intro attempt _ h _; exact absurd h (by omega)
  | succ f ih =>
    intro attempt hsum _ herr
    obtain ⟨e, hTry, hret⟩ := herr attempt le_rfl (by omega)
    cases f with
    | zero =>
      have hat : retries - 1 = attempt := by omega
      have hcond : ¬ attempt < retries - 1 := by omega
      refine ⟨e, by rw [hat]; exact hTry, hret, ?_⟩
      rw [runFrom_retry_stop get retries 0 attempt e hTry hret hcond]
      rfl
    | succ f' =>
      have hcond : attempt < retries - 1 := by omega
      obtain ⟨e', hTry', hret', hrun'⟩ :=
        ih (attempt + 1) (by omega) (by omega) (fun i hi1 hi2 => herr i (by omega) hi2)
      refine ⟨e', hTry', hret', ?_⟩
      rw [runFrom_retry_step get retries (f' + 1) attempt e hTry hret hcond, hrun']
      simp [retryTrace]

/-- A network-classified `requests` exception is handled by the retrying
`RequestException` clause. -/
theorem ReqExc.isNetwork_retriable (e : ReqExc) (he : e.isNetwork = true) :
    e.toPyExc.retriable = true := by
  cases e <;> simp_all [ReqExc.isNetwork, ReqExc.toPyExc, PyExc.retriable]

/-- C1, amended: an empty-bodied success response is *not* fatal — the
empty-body exception is caught by the generic retrying handler, so when
every response has a success envelope, the required content type and an
empty body, the run performs one HTTP request per configured attempt with a
backoff between consecutive attempts, and only after exhausting all
`retries` attempts surfaces the empty-body error. -/
theorem emptyBody_retries_then_raises :
    ∀ (get : Nat → HttpOutcome) (retries : Nat), 0 < retries →
    (∀ i, ∃ r, get i = .returns r ∧
        r.contentType = some "application/x-protobuf" ∧ r.content = .empty) →
    fetch_gtfs_rt_data get retries =
      (retryTrace retries, some (.error (.exception "No valid GTFS RT data found"))) := by
  intro get retries hr hget
  have hTryAt : ∀ i, attemptTry (get i) =
      .error (.exception "No valid GTFS RT data found") := by
    intro i
    obtain ⟨r, hgi, hct, hc⟩ := hget i
    rw [hgi]
    simp [attemptTry, hct, hc]
  have herr : ∀ i, 0 ≤ i → i < retries →
      ∃ e, attemptTry (get i) = .error e ∧ e.retriable = true :=
    fun i _ _ => ⟨_, hTryAt i, rfl⟩
  obtain ⟨e, hTry, _, hrun⟩ :=
    runFrom_all_retriable get retries retries 0 (by omega) hr herr
  have he := hTry.symm.trans (hTryAt (retries - 1))
  injection he with he
  subst he
  exact hrun

/-- C1 witness: with `retries = 3` and every response empty-bodied, three
requests are issued with two backoffs and the empty-body error surfaces. -/
theorem emptyBody_retries_then_raises_witness :
    fetch_gtfs_rt_data emptyBodyGet 3 =
      (retryTrace 3, some (.error (.exception "No valid GTFS RT data found"))) :=
  emptyBody_retries_then_raises emptyBodyGet 3 (by decide)
    (fun _ => ⟨emptyBodyResponse, rfl, rfl, rfl⟩)

/-- C2, amended: `InvalidURL` is *not* fatal — as a `RequestException` it is
caught by the retrying handler, so when `requests.get` raises `InvalidURL`
on every attempt, the run performs one request per configured attempt with a
backoff between consecutive attempts, and after exhausting all `retries`
attempts re-raises `InvalidURL`. -/
theorem invalidURL_retries_then_raises :
    ∀ (get : Nat → HttpOutcome) (retries : Nat), 0 < retries →
    (∀ i, get i = .raises .invalidURL) →
    fetch_gtfs_rt_data get retries =
      (retryTrace retries, some (.error .invalidURL)) := by
  intro get retries hr hget
  have hTryAt : ∀ i, attemptTry (get i) = .error .invalidURL := by
    intro i; rw [hget i]; rfl
  have herr : ∀ i, 0 ≤ i → i < retries →
      ∃ e, attemptTry (get i) = .error e ∧ e.retriable = true :=
    fun i _ _ => ⟨_, hTryAt i, rfl⟩
  obtain ⟨e, hTry, _, hrun⟩ :=
    runFrom_all_retriable get retries retries 0 (by omega) hr herr
  have he := hTry.symm.trans (hTryAt (retries - 1))
  injection he with he
  subst he
  exact hrun

/-- C2 witness: with `retries = 3`, `InvalidURL` on every attempt yields
three requests, two backoffs, then `InvalidURL`. -/
theorem invalidURL_retries_then_raises_witness :
    fetch_gtfs_rt_data invalidURLGet 3 =
      (retryTrace 3, some (.error .invalidURL)) :=
  invalidURL_retries_then_raises invalidURLGet 3 (by decide) (fun _ => rfl)

/-- C4: a first response whose `Content-Type` header differs from
`application/x-protobuf` makes the fetch fail immediately with the
content-type `ValueError` — exactly one HTTP request, no backoff, no
retry, whatever positive retry budget remains. -/
theorem contentTypeMismatch_immediate :
    ∀ (get : Nat → HttpOutcome) (retries : Nat) (r : HttpResponse), 0 < retries →
    get 0 = .returns r → r.contentType ≠ some "application/x-protobuf" →
    fetch_gtfs_rt_data get retries =
      ([.request],
       some (.error (.valueError ("Unexpected content type: " ++ pyStr r.contentType)))) := by
  intro get retries r hr h0 hct
  obtain ⟨k, rfl⟩ : ∃ k, retries = k + 1 := ⟨retries - 1, by omega⟩
  have hTry : attemptTry (get 0) =
      .error (.valueError ("Unexpected content type: " ++ pyStr r.contentType)) := by
    rw [h0]; simp only [attemptTry]; rw [if_pos hct]
  show runFrom get (k + 1) (k + 1) 0 = _
  simp [runFrom, hTry]

/-- C4 witness: a `text/html` response fails on the first attempt with the
content-type error and a single request issued. -/
theorem contentTypeMismatch_immediate_witness :
    fetch_gtfs_rt_data
        (fun _ => .returns { status_code := 200, contentType := some "text/html",
                             content := .empty }) 3 =
      ([.request], some (.error (.valueError "Unexpected content type: text/html"))) :=
  contentTypeMismatch_immediate _ 3
    { status_code := 200, contentType := some "text/html", content := .empty }
    (by decide) rfl (by decide)

/-- C5: with `retries = 3` and a network (connection/timeout) failure on
every attempt, the run performs exactly three attempts with one backoff
between each consecutive pair, and surfaces the exception of the *last*
attempt unchanged — there is no distinct cap-exceeded error. -/
theorem networkError_three_attempts :
    ∀ (get : Nat → HttpOutcome) (e0 e1 e2 : ReqExc),
    get 0 = .raises e0 → get 1 = .raises e1 → get 2 = .raises e2 →
    e0.isNetwork = true → e1.isNetwork = true → e2.isNetwork = true →
    fetch_gtfs_rt_data get 3 =
      ([.request, .sleepBackoff, .request, .sleepBackoff, .request],
       some (.error e2.toPyExc)) := by
  intro get e0 e1 e2 h0 h1 h2 n0 n1 n2
  have hTry0 : attemptTry (get 0) = .error e0.toPyExc := by rw [h0]; rfl
  have hTry1 : attemptTry (get 1) = .error e1.toPyExc := by rw [h1]; rfl
  have hTry2 : attemptTry (get 2) = .error e2.toPyExc := by rw [h2]; rfl
  show runFrom get 3 3 0 = _
  rw [runFrom_retry_step get 3 2 0 _ hTry0 (ReqExc.isNetwork_retriable e0 n0) (by omega),
      runFrom_retry_step get 3 1 1 _ hTry1 (ReqExc.isNetwork_retriable e1 n1) (by omega),
      runFrom_retry_stop get 3 0 2 _ hTry2 (ReqExc.isNetwork_retriable e2 n2) (by omega)]

/-- C5 witness: a connection error on all three attempts. -/
theorem networkError_three_attempts_witness :
    fetch_gtfs_rt_data (fun _ => .raises .connectionError) 3 =
      ([.request, .sleepBackoff, .request, .sleepBackoff, .request],
       some (.error .connectionError)) :=
  networkError_three_attempts _ .connectionError .connectionError .connectionError
    rfl rfl rfl rfl rfl rfl

/-- C6: with `retries = 3`, network failures on the first two attempts and a
valid well-formed payload on the third, the run succeeds on the third attempt
and returns the validated result — no error surfaces. -/
theorem recovery_on_third_attempt :
    ∀ (get : Nat → HttpOutcome) (e0 e1 : ReqExc) (r : HttpResponse)
      (feed : FeedMessage) (res : GTFSRTDataModel),
    get 0 = .raises e0 → get 1 = .raises e1 →
    e0.isNetwork = true → e1.isNetwork = true →
    get 2 = .returns r →
    r.contentType = some "application/x-protobuf" →
    r.content = .wellFormed feed →
    processFeed feed = .ok res →
    fetch_gtfs_rt_data get 3 =
      ([.request, .sleepBackoff, .request, .sleepBackoff, .request],
       some (.ok res)) := by
  intro get e0 e1 r feed res h0 h1 n0 n1 h2 hct hc hpf
  have hTry0 : attemptTry (get 0) = .error e0.toPyExc := by rw [h0]; rfl
  have hTry1 : attemptTry (get 1) = .error e1.toPyExc := by rw [h1]; rfl
  have hTry2 : attemptTry (get 2) = .ok res := by
    rw [h2]; simp [attemptTry, hct, hc, hpf]
  have step2 : runFrom get 3 1 2 = ([.request], some (.ok res)) := by
    simp [runFrom, hTry2]
  show runFrom get 3 3 0 = _
  rw [runFrom_retry_step get 3 2 0 _ hTry0 (ReqExc.isNetwork_retriable e0 n0) (by omega),
      runFrom_retry_step get 3 1 1 _ hTry1 (ReqExc.isNetwork_retriable e1 n1) (by omega),
      step2]

/-- Unfolding `lastVehicleSlot` over a cons cell: the last vehicle-tagged
entity of `e :: l` is the one in `l` when there is one, else `e` if tagged. -/
theorem lastVehicleSlot_cons (hts : Option Nat) (e : FeedEntity) (l : List FeedEntity) :
    lastVehicleSlot hts (e :: l) =
      (match lastVehicleSlot hts l with
       | some v => some v
       | none => e.vehicle.map (fun vp => mapVehicleData e.id vp hts)) := by
  unfold lastVehicleSlot
  rw [List.reverse_cons, List.find?_append]
  cases hf : l.reverse.find? (fun e => e.vehicle.isSome) with
  | some a =>
    have hp := List.find?_some hf
    cases ha : a.vehicle with
    | none => rw [ha] at hp; simp at hp
    | some vp => simp [Option.or, ha]
  | none =>
    cases he : e.vehicle with
    | none => simp [Option.or, List.find?, he]
    | some vp => simp [Option.or, List.find?, he]

/-- A record selected by `lastVehicleSlot` carries the feed-header timestamp. -/
theorem lastVehicleSlot_timestamp (hts : Option Nat) (l : List FeedEntity)
    (v : VehiclePositionModel) (h : lastVehicleSlot hts l = some v) :
    v.timestamp = some (hts.getD 0) := by
  unfold lastVehicleSlot at h
  cases hf : l.reverse.find? (fun e => e.vehicle.isSome) with
  | none => rw [hf] at h; simp at h
  | some a =>
    rw [hf] at h
    simp at h
    obtain ⟨vp, hvp, hmap⟩ := h
    subst hmap
    rfl

/-- pydantic validation is the identity on the records it accepts. -/
theorem VehiclePositionModel.validate_ok {d v : VehiclePositionModel}
    (h : d.validate = .ok v) : v = d := by
  unfold VehiclePositionModel.validate at h
  by_cases hc : d.multi_carriage_details.isEmpty
  · rw [if_pos hc] at h; injection h with h; exact h.symm
  · rw [if_neg hc] at h; exact Except.noConfusion h

/-- The `vehicle` slot written by one entity-loop iteration. -/
theorem processEntity_vehicle (hts : Option Nat) (st : GTFSRTDataModel)
    (e : FeedEntity) (st' : GTFSRTDataModel) (h : processEntity hts st e = .ok st') :
    st'.vehicle = (match e.vehicle with
                   | some vp => some (mapVehicleData e.id vp hts)
                   | none => st.vehicle) := by
  unfold processEntity at h
  cases he : e.vehicle with
  | none =>
    rw [he] at h
    simp at h
    subst h
    cases htu : e.trip_update.isSome <;> cases hal : e.alert.isSome <;> simp [htu, hal]
  | some vp =>
    rw [he] at h
    simp only [] at h
    cases hval : (mapVehicleData e.id vp hts).validate with
    | error m => rw [hval] at h; simp at h
    | ok v =>
      rw [hval] at h
      simp at h
      subst h
      have hv := VehiclePositionModel.validate_ok hval
      subst hv
      cases htu : e.trip_update.isSome <;> cases hal : e.alert.isSome <;> simp [htu, hal]

/-- A vehicle-tagged entity that the loop processed successfully passed
validation. -/
theorem processEntity_ok_valid (hts : Option Nat) (st : GTFSRTDataModel)
    (e : FeedEntity) (st' : GTFSRTDataModel) (vp : VehiclePosition)
    (h : processEntity hts st e = .ok st') (hvp : e.vehicle = some vp) :
    (mapVehicleData e.id vp hts).validate.isOk = true := by
  unfold processEntity at h
  rw [hvp] at h
  simp only [] at h
  cases hval : (mapVehicleData e.id vp hts).validate with
  | error m => rw [hval] at h; simp at h
  | ok v => rfl

/-- A vehicle-tagged entity that fails validation makes its loop iteration
raise. -/
theorem processEntity_error_of_invalid (hts : Option Nat) (st : GTFSRTDataModel)
    (e : FeedEntity) (vp : VehiclePosition) (hvp : e.vehicle = some vp)
    (hbad : (mapVehicleData e.id vp hts).validate.isOk = false) :
    ∃ m, processEntity hts st e = .error m := by
  unfold processEntity
  rw [hvp]
  simp only []
  cases hval : (mapVehicleData e.id vp hts).validate with
  | error m => exact ⟨m, rfl⟩
  | ok v => rw [hval] at hbad; exact Bool.noConfusion hbad

/-- The entity loop's `vehicle` slot is the record mapped from the last
vehicle-tagged entity processed, or the incoming slot when none is. -/
theorem foldl_vehicle_slot (hts : Option Nat) :
    ∀ (l : List FeedEntity) (st r : GTFSRTDataModel),
      l.foldlM (processEntity hts) st = .ok r →
      r.vehicle = (match lastVehicleSlot hts l with
                   | some v => some v
                   | none => st.vehicle) := by
  intro l
  induction l with
  | nil =>
    intro st r h
    rw [List.foldlM_nil] at h
    injection h with h
    subst h
    simp [lastVehicleSlot]
  | cons e l ih =>
    intro st r h
    rw [List.foldlM_cons] at h
    cases hpe : processEntity hts st e with
    | error m => rw [hpe] at h; exact absurd h (by simp [Bind.bind, Except.bind])
    | ok st' =>
      rw [hpe] at h
      have h' : l.foldlM (processEntity hts) st' = .ok r := by
        simpa [Bind.bind, Except.bind] using h
      have hrec := ih st' r h'
      rw [lastVehicleSlot_cons]
      cases hls : lastVehicleSlot hts l with
      | some v => rw [hls] at hrec; simpa using hrec
      | none =>
        rw [hls] at hrec
        simp at hrec
        rw [hrec, processEntity_vehicle hts st e st' hpe]
        cases hev : e.vehicle <;> simp [hev]

/-- If some vehicle-tagged entity in the list fails validation, the entity
loop raises a `ValidationError` from whatever state it reaches. -/
theorem foldl_error_of_invalid (hts : Option Nat) :
    ∀ (l : List FeedEntity) (st : GTFSRTDataModel),
      (∃ e ∈ l, ∃ vp, e.vehicle = some vp ∧
         (mapVehicleData e.id vp hts).validate.isOk = false) →
      ∃ m, l.foldlM (processEntity hts) st = .error m := by
  intro l
  induction l with
  | nil => intro st h; simp at h
  | cons e l ih =>
    intro st h
    rw [List.foldlM_cons]
    cases hpe : processEntity hts st e with
    | error m => exact ⟨m, rfl⟩
    | ok st' =>
      obtain ⟨a, ha, vp, hvp, hbad⟩ := h
      rcases List.mem_cons.mp ha with rfl | ha'
      · obtain ⟨m, hm⟩ := processEntity_error_of_invalid hts st a vp hvp hbad
        rw [hpe] at hm
        exact Except.noConfusion hm
      · obtain ⟨m, hm⟩ := ih st' ⟨a, ha', vp, hvp, hbad⟩
        refine ⟨m, ?_⟩
        simpa [Bind.bind, Except.bind] using hm

/-- If the entity loop succeeds, every vehicle-tagged entity in the list
passed validation. -/
theorem foldl_ok_all_valid (hts : Option Nat) :
    ∀ (l : List FeedEntity) (st r : GTFSRTDataModel),
      l.foldlM (processEntity hts) st = .ok r →
      ∀ e ∈ l, ∀ vp, e.vehicle = some vp →
        (mapVehicleData e.id vp hts).validate.isOk = true := by
  intro l
  induction l with
  | nil => intro st r _ e he; exact absurd he (by simp)
  | cons a l ih =>
    intro st r h e he vp hvp
    rw [List.foldlM_cons] at h
    cases hpe : processEntity hts st a with
    | error m => rw [hpe] at h; exact absurd h (by simp [Bind.bind, Except.bind])
    | ok st' =>
      rw [hpe] at h
      have h' : l.foldlM (processEntity hts) st' = .ok r := by
        simpa [Bind.bind, Except.bind] using h
      rcases List.mem_cons.mp he with rfl | he'
      · exact processEntity_ok_valid hts st e st' vp hpe hvp
      · exact ih st' r h' e he' vp hvp

/-- A response carrying the feed `badFeed`, whose only entity fails
validation. -/
def badResponse : HttpResponse :=
  { status_code := 200, contentType := some "application/x-protobuf",
    content := .wellFormed badFeed }

/-- C8: (1) when some vehicle-tagged entity of the first response's feed
fails validation, the whole fetch cycle aborts with that `ValidationError`
after exactly one HTTP request — no retry; and (2) whenever the pipeline
does return a result, every vehicle-tagged entity of the decoded feed passed
validation, so the caller never receives a partially validated result. -/
theorem validation_failure_aborts :
    (∀ (get : Nat → HttpOutcome) (retries : Nat) (r0 : HttpResponse) (feed : FeedMessage),
       0 < retries → get 0 = .returns r0 →
       r0.contentType = some "application/x-protobuf" →
       r0.content = .wellFormed feed →
       (∃ e ∈ feed.entity, ∃ vp, e.vehicle = some vp ∧
          (mapVehicleData e.id vp feed.header.timestamp).validate.isOk = false) →
       ∃ m, processFeed feed = .error (.validationError m) ∧
         fetch_gtfs_rt_data get retries =
           ([.request], some (.error (.validationError m)))) ∧
    (∀ (feed : FeedMessage) (r : GTFSRTDataModel), processFeed feed = .ok r →
       ∀ e ∈ feed.entity, ∀ vp, e.vehicle = some vp →
         (mapVehicleData e.id vp feed.header.timestamp).validate.isOk = true) := by
  constructor
  · intro get retries r0 feed hr h0 hct hc hbad
    obtain ⟨m, hm⟩ := foldl_error_of_invalid feed.header.timestamp feed.entity initResult hbad
    have hpf : processFeed feed = .error (.validationError m) := by
      unfold processFeed; rw [hm]
    refine ⟨m, hpf, ?_⟩
    obtain ⟨k, rfl⟩ : ∃ k, retries = k + 1 := ⟨retries - 1, by omega⟩
    have hTry : attemptTry (get 0) = .error (.validationError m) := by
      rw [h0]; simp [attemptTry, hct, hc, hpf]
    show runFrom get (k + 1) (k + 1) 0 = _
    simp [runFrom, hTry]
  · intro feed r hpf e he vp hvp
    unfold processFeed at hpf
    cases hfold : feed.entity.foldlM (processEntity feed.header.timestamp) initResult with
    | error m => rw [hfold] at hpf; exact Except.noConfusion hpf
    | ok r' =>
      exact foldl_ok_all_valid feed.header.timestamp feed.entity initResult r' hfold e he vp hvp

/-- C8 witness: a feed whose single vehicle entity has a non-empty
`multi_carriage_details` fails validation, and with `retries = 3` the fetch
aborts on the first attempt with the `ValidationError`. -/
theorem validation_failure_aborts_witness :
    processFeed badFeed =
      .error (.validationError "multi_carriage_details: Input should be a valid dictionary") ∧
    fetch_gtfs_rt_data (fun _ => .returns badResponse) 3 =
      ([.request],
       some (.error (.validationError
         "multi_carriage_details: Input should be a valid dictionary"))) := by
  obtain ⟨m, h1, h2⟩ :=
    validation_failure_aborts.1 (fun _ => .returns badResponse) 3 badResponse badFeed
      (by decide) rfl rfl rfl
      ⟨vehEntity "v1" badVehicle, by decide, badVehicle, rfl, by decide⟩
  have hconc : processFeed badFeed =
      .error (.validationError "multi_carriage_details: Input should be a valid dictionary") := rfl
  rw [h1] at hconc
  injection hconc with hconc
  injection hconc with hconc
  subst hconc
  exact ⟨h1, h2⟩

/-- C9: (1) the vehicle record of any successfully returned result carries
the feed header's timestamp (protobuf-defaulted to `0` when the header has
none); and (2) the mapper stamps every vehicle record with the header
timestamp, independently of the entity's own `timestamp` field. -/
theorem vehicle_timestamp_from_header :
    (∀ (feed : FeedMessage) (r : GTFSRTDataModel) (v : VehiclePositionModel),
       processFeed feed = .ok r → r.vehicle = some v →
       v.timestamp = some (feed.header.timestamp.getD 0)) ∧
    (∀ (entityId : String) (vp : VehiclePosition) (hts : Option Nat),
       (mapVehicleData entityId vp hts).timestamp = some (hts.getD 0)) := by
  constructor
  · intro feed r v hpf hv
    unfold processFeed at hpf
    cases hfold : feed.entity.foldlM (processEntity feed.header.timestamp) initResult with
    | error m => rw [hfold] at hpf; exact Except.noConfusion hpf
    | ok r' =>
      rw [hfold] at hpf
      injection hpf with hr'
      subst hr'
      have hslot := foldl_vehicle_slot feed.header.timestamp feed.entity initResult r' hfold
      cases hls : lastVehicleSlot feed.header.timestamp feed.entity with
      | none => rw [hls] at hslot; rw [hv] at hslot; simp [initResult] at hslot
      | some w =>
        rw [hls] at hslot
        simp at hslot
        rw [hv] at hslot
        injection hslot with hw
        subst hw
        exact lastVehicleSlot_timestamp _ _ _ hls
  · intro entityId vp hts
    rfl

/-- C9 witness: a concrete one-entity feed whose header timestamp is 100. -/
theorem vehicle_timestamp_from_header_witness :
    (mapVehicleData "v1" bareVehicle (some 100)).timestamp = some 100 :=
  vehicle_timestamp_from_header.1 goodFeed
    { vehicle := some (mapVehicleData "v1" bareVehicle (some 100)),
      trip_update := none, alert := none }
    (mapVehicleData "v1" bareVehicle (some 100)) rfl rfl

/-- C10: (1) the `vehicle` slot of any successfully returned result is
exactly the record mapped from the last vehicle-tagged entity in feed order
(earlier vehicle entities are overwritten), and (2) every vehicle-tagged
entity — including overwritten ones — is still validated: one failing
aborts the cycle with a `ValidationError`. -/
theorem last_vehicle_entity_wins :
    (∀ (feed : FeedMessage) (r : GTFSRTDataModel), processFeed feed = .ok r →
       r.vehicle = lastVehicleSlot feed.header.timestamp feed.entity) ∧
    (∀ (feed : FeedMessage),
       (∃ e ∈ feed.entity, ∃ vp, e.vehicle = some vp ∧
          (mapVehicleData e.id vp feed.header.timestamp).validate.isOk = false) →
       ∃ m, processFeed feed = .error (.validationError m)) := by
  constructor
  · intro feed r hpf
    unfold processFeed at hpf
    cases hfold : feed.entity.foldlM (processEntity feed.header.timestamp) initResult with
    | error m => rw [hfold] at hpf; exact Except.noConfusion hpf
    | ok r' =>
      rw [hfold] at hpf
      injection hpf with hr'
      subst hr'
      have hslot := foldl_vehicle_slot feed.header.timestamp feed.entity initResult r' hfold
      cases hls : lastVehicleSlot feed.header.timestamp feed.entity with
      | none => rw [hls] at hslot; simpa [initResult] using hslot
      | some w => rw [hls] at hslot; simpa using hslot
  · intro feed hbad
    obtain ⟨m, hm⟩ := foldl_error_of_invalid feed.header.timestamp feed.entity initResult hbad
    exact ⟨m, by unfold processFeed; rw [hm]⟩

/-- The result the pipeline returns for `twoVehFeed`. -/
def twoVehResult : GTFSRTDataModel :=
  { vehicle := some (mapVehicleData "b" bareVehicle (some 9)),
    trip_update := none, alert := none }

/-- C10 witness: in a two-vehicle feed the returned slot is the record of
the second (last) vehicle entity. -/
theorem last_vehicle_entity_wins_witness :
    twoVehResult.vehicle = lastVehicleSlot (some 9) twoVehFeed.entity :=
  last_vehicle_entity_wins.1 twoVehFeed twoVehResult rfl

/-- An endpoint that times out on the first two attempts and then serves
`goodFeed`. -/
def flakyGet : Nat → HttpOutcome := fun i =>
  if i < 2 then .raises .timeout
  else .returns { status_code := 200, contentType := some "application/x-protobuf",
                  content := .wellFormed goodFeed }

/-- The result the pipeline returns for `goodFeed`. -/
def goodFeedResult : GTFSRTDataModel :=
  { vehicle := some (mapVehicleData "v1" bareVehicle (some 100)),
    trip_update := none, alert := none }

/-- C6 witness: two timeouts then a valid payload succeed on the third
attempt. -/
theorem recovery_on_third_attempt_witness :
    fetch_gtfs_rt_data flakyGet 3 =
      ([.request, .sleepBackoff, .request, .sleepBackoff, .request],
       some (.ok goodFeedResult)) :=
  recovery_on_third_attempt flakyGet .timeout .timeout
    { status_code := 200, contentType := some "application/x-protobuf",
      content := .wellFormed goodFeed }
    goodFeed goodFeedResult rfl rfl rfl rfl rfl rfl rfl rfl
